import Mathlib

/-!
Verification development for the DEFI-DNA real-time leaderboard pipeline.

Shallow embedding of the repository's core modules:

* `src/unnamed/part_001` — the WebSocket delta broadcaster
  (`setWebSocketServer`, `broadcastToAll`, `broadcastLeaderboardUpdate`,
  `broadcastRankingChanges`, `broadcastNewLeader`, `broadcastUserUpdate`,
  `broadcastUserAction`).
* `src/backend/FIXES/indexer-processSwap-FIXED.js` — the indexer pipeline
  (`processSwap`, `updateDNAScore`, `checkLeaderboardChange`).

Modelling conventions: the module-level mutable `wssInstance` becomes an
explicit `Option (List Client)` argument; a JavaScript `client.send` call that
may throw is modelled by a per-client `sendOk` flag; database queries that may
throw are modelled by per-query success flags; JavaScript numbers carried by
messages are modelled as `Int` / `Rat` (no claim below depends on
floating-point rounding); `Date.now()` becomes an explicit `now : Nat`
parameter.  Emitted broadcast calls are recorded as the `Message` values the
broadcaster wrappers construct.
-/

namespace DefiDna

/-- A subscriber connection: an id (for tracing which client a send reached),
the transport `readyState` (`1` = OPEN, as compared by `client.readyState === 1`
in `broadcastToAll`), and whether a `send` call on it succeeds or throws. -/
structure Client where
  id : Nat
  readyState : Nat
  sendOk : Bool
deriving DecidableEq

/-- Payload of the indexer's incremental `leaderboard_update` broadcast
(`indexer-processSwap-FIXED.js` lines 267–273). -/
structure RankPayload where
  address : String
  newRank : Nat
  oldRank : Nat
  dnaScore : Int
  tier : String
deriving DecidableEq

/-- An element of the input array of `broadcastRankingChanges`. -/
structure RankingChange where
  address : String
  oldRank : Int
  newRank : Int
  dnaScore : Int
  tier : String
deriving DecidableEq

/-- An element of the `changes` array of an outgoing `ranking_changes`
message: the input element plus the computed `rankChange` field. -/
structure RankingChangeOut where
  address : String
  oldRank : Int
  newRank : Int
  dnaScore : Int
  tier : String
  rankChange : Int
deriving DecidableEq

/-- `changes.map((c) => ({ ...c, rankChange: c.oldRank - c.newRank }))`
(part_001 line 33): spread the input element and add `rankChange`. -/
def expandChange (c : RankingChange) : RankingChangeOut :=
  ⟨c.address, c.oldRank, c.newRank, c.dnaScore, c.tier, c.oldRank - c.newRank⟩

/-- Input of `broadcastNewLeader` (snake_case row fields, part_001 line 38). -/
structure LeaderIn where
  address : String
  ens_name : Option String
  dna_score : Int
  tier : String
  total_positions : Int
  total_volume_usd : Int
deriving DecidableEq

/-- The `leader` object of an outgoing `new_leader` message (camelCase,
part_001 lines 41–48). -/
structure LeaderOut where
  address : String
  ensName : Option String
  dnaScore : Int
  tier : String
  totalPositions : Int
  totalVolumeUsd : Int
deriving DecidableEq

/-- Field-renaming performed by `broadcastNewLeader` when building the
`leader` object. -/
def toLeaderOut (l : LeaderIn) : LeaderOut :=
  ⟨l.address, l.ens_name, l.dna_score, l.tier, l.total_positions, l.total_volume_usd⟩

/-- Payload of `broadcastUserUpdate` (part_001 line 53). -/
structure UserUpdatePayload where
  address : String
  dnaScore : Int
  tier : String
  timestamp : Nat
deriving DecidableEq

/-- Payload of `broadcastUserAction` (part_001 line 57). -/
structure UserActionPayload where
  address : String
  actionType : String
  poolId : Option String
  amountUsd : Option Rat
  timestamp : Nat
deriving DecidableEq

/-- The typed wire messages built by the five broadcaster wrappers
(part_001 lines 26–59); the `type` discriminator string of the JSON object
is the constructor. -/
inductive Message where
  | leaderboardUpdate (updateType : String) (data : Option RankPayload) (timestamp : Nat)
  | rankingChanges (changes : List RankingChangeOut) (timestamp : Nat)
  | newLeader (leader : LeaderOut) (timestamp : Nat)
  | userUpdate (p : UserUpdatePayload)
  | userAction (p : UserActionPayload)
deriving DecidableEq

/-- Observable outcome of one `broadcastToAll` call: the returned
`{ sentCount, errorCount }` object plus, for the proofs, the ids of the
clients a send succeeded on (`delivered`) and the ids of the clients a send
was attempted on (`attempted`). -/
structure BroadcastTrace where
  sentCount : Nat
  errorCount : Nat
  delivered : List Nat
  attempted : List Nat
deriving DecidableEq

/-- Body of the `wssInstance.clients.forEach` callback in `broadcastToAll`
(part_001 lines 13–22): skip a client unless `readyState === 1`; otherwise
attempt the send, incrementing `sentCount` on success and `errorCount` when
`client.send` throws (the catch block). -/
def sendStep (acc : BroadcastTrace) (c : Client) : BroadcastTrace :=
  if c.readyState = 1 then
    if c.sendOk then
      ⟨acc.sentCount + 1, acc.errorCount, acc.delivered ++ [c.id], acc.attempted ++ [c.id]⟩
    else
      ⟨acc.sentCount, acc.errorCount + 1, acc.delivered, acc.attempted ++ [c.id]⟩
  else acc

/-- The trace of a broadcast that touched no client. -/
def emptyTrace : BroadcastTrace := ⟨0, 0, [], []⟩

/-- `broadcastToAll` (part_001 lines 9–24).  The module state `wssInstance`
is the explicit first argument: `none` when `setWebSocketServer` was never
called, `some clients` otherwise.  With no instance it returns
`{ sentCount: 0, errorCount: 0 }` immediately; otherwise it iterates the
client set in order.  The message content does not influence the trace
(`JSON.stringify` of these messages does not throw), hence `_msg`. -/
def broadcastToAll (wss : Option (List Client)) (_msg : Message) : BroadcastTrace :=
  match wss with
  | none => emptyTrace
  | some clients => clients.foldl sendStep emptyTrace

/-- `broadcastToAll` together with the subscriber set after the call.  The
source of `broadcastToAll` contains no statement that mutates
`wssInstance` or removes a client from `wssInstance.clients` — the catch
block only increments `errorCount` — so the post-state equals the
pre-state. -/
def broadcastToAllState (wss : Option (List Client)) (msg : Message) :
    BroadcastTrace × Option (List Client) :=
  (broadcastToAll wss msg, wss)

/-- `broadcastLeaderboardUpdate(type, data)` (part_001 lines 26–28). -/
def broadcastLeaderboardUpdate (wss : Option (List Client)) (now : Nat)
    (updateType : String) (data : Option RankPayload) : BroadcastTrace :=
  broadcastToAll wss (Message.leaderboardUpdate updateType data now)

/-- The `ranking_changes` message built by `broadcastRankingChanges`
(part_001 lines 31–35). -/
def rankingChangesMessage (now : Nat) (changes : List RankingChange) : Message :=
  Message.rankingChanges (changes.map expandChange) now

/-- `broadcastRankingChanges(changes)` (part_001 lines 30–36). -/
def broadcastRankingChanges (wss : Option (List Client)) (now : Nat)
    (changes : List RankingChange) : BroadcastTrace :=
  broadcastToAll wss (rankingChangesMessage now changes)

/-- `broadcastNewLeader(leader)` (part_001 lines 38–51). -/
def broadcastNewLeader (wss : Option (List Client)) (now : Nat)
    (leader : LeaderIn) : BroadcastTrace :=
  broadcastToAll wss (Message.newLeader (toLeaderOut leader) now)

/-- `broadcastUserUpdate(payload)` (part_001 lines 53–55). -/
def broadcastUserUpdate (wss : Option (List Client))
    (p : UserUpdatePayload) : BroadcastTrace :=
  broadcastToAll wss (Message.userUpdate p)

/-- `broadcastUserAction(payload)` (part_001 lines 57–59). -/
def broadcastUserAction (wss : Option (List Client))
    (p : UserActionPayload) : BroadcastTrace :=
  broadcastToAll wss (Message.userAction p)

/-- The `changes` array carried by a message (empty for other kinds). -/
def msgChanges : Message → List RankingChangeOut
  | Message.rankingChanges chs _ => chs
  | _ => []

/-- Clients in OPEN state whose send succeeds. -/
def okSend (c : Client) : Bool := (c.readyState == 1) && c.sendOk

/-- Clients in OPEN state whose send throws. -/
def badSend (c : Client) : Bool := (c.readyState == 1) && !c.sendOk

/-- Clients in OPEN state (`readyState === 1`). -/
def isLive (c : Client) : Bool := c.readyState == 1

/-- A row of the `user_stats` table as seen by the ranking query in
`checkLeaderboardChange` (`indexer-processSwap-FIXED.js` lines 285–291). -/
structure StatsRow where
  address : String
  dna_score : Int
deriving DecidableEq

/-- Result-order semantics of the ranking query
`SELECT ROW_NUMBER() OVER (ORDER BY dna_score DESC) as rank, address
 FROM user_stats WHERE dna_score > 0`:
a list `perm` is a valid result when it contains exactly the rows with
positive score and is non-increasing in `dna_score`.  The query specifies no
order among rows with equal `dna_score`, so every such `perm` is a possible
result. -/
def validScoreOrder (rows perm : List StatsRow) : Prop :=
  List.Perm perm (rows.filter (fun r => 0 < r.dna_score)) ∧
    List.Sorted (fun a b => b.dna_score ≤ a.dna_score) perm

/-- The 1-based `ROW_NUMBER` rank of an address in a query result order
(`currentRankResult.rows.find(r => r.address === address)?.rank`). -/
def rankOf (perm : List StatsRow) (address : String) : Option Nat :=
  (perm.findIdx? (fun r => r.address == address)).map (· + 1)

/-- Rank-change information the indexer expects from
`checkLeaderboardChange` (`rankChange.oldRank` / `rankChange.newRank`,
`indexer-processSwap-FIXED.js` lines 266–273). -/
structure RankChangeInfo where
  oldRank : Nat
  newRank : Nat
deriving DecidableEq

/-- `checkLeaderboardChange(client, address)`
(`indexer-processSwap-FIXED.js` lines 282–305).  The function runs the
ranking query, but the comparison with a previous rank is unimplemented:
the source says "For now, return null (no change detection)" and returns
`null` unconditionally (its catch branch also returns `null`). -/
def checkLeaderboardChange (_rows : List StatsRow) (_address : String) :
    Option RankChangeInfo :=
  none

/-- Environment of one `updateDNAScore(client, address)` call
(`indexer-processSwap-FIXED.js` lines 197–280): success flags for the three
SELECT queries and the `dna_score` UPDATE, whether a `user_stats` row exists
for the address, the values the external `dnaScoreService` returns
(`calculateScore` / `getTier`), the `user_stats` rows the ranking query
would see, whether `this.websocketServer` is set, and `Date.now()`. -/
structure DnaEnv where
  qActiveDaysOk : Bool
  qFirstActionOk : Bool
  qStatsOk : Bool
  statsRowExists : Bool
  scoreUpdateOk : Bool
  wsServer : Bool
  calcScore : Int
  calcTier : String
  rankRows : List StatsRow
  now : Nat
deriving DecidableEq

/-- Outcome of a pipeline call: whether it returned normally (`ok = true`)
or threw; the broadcast calls it made, recorded as the messages the
broadcaster wrappers build; and whether the rank-change detection
(`checkLeaderboardChange`) was reached. -/
structure PipeResult where
  ok : Bool
  emissions : List Message
  rankChecked : Bool
deriving DecidableEq

/-- `updateDNAScore(client, address)` (`indexer-processSwap-FIXED.js`
lines 197–280).  A failing query throws; the catch block logs and
re-throws (`throw error`, line 278), so `ok = false` propagates to the
caller.  A missing `user_stats` row logs a warning and returns normally
(line 226–229).  After the `dna_score` UPDATE the function broadcasts
`user_update` when `this.websocketServer` is set (lines 255–262), then
consults `checkLeaderboardChange` and, when it reports a change,
broadcasts an incremental `leaderboard_update` (lines 265–274). -/
def updateDNAScore (env : DnaEnv) (address : String) : PipeResult :=
  if !env.qActiveDaysOk then ⟨false, [], false⟩
  else if !env.qFirstActionOk then ⟨false, [], false⟩
  else if !env.qStatsOk then ⟨false, [], false⟩
  else if !env.statsRowExists then ⟨true, [], false⟩
  else if !env.scoreUpdateOk then ⟨false, [], false⟩
  else
    let e1 : List Message :=
      if env.wsServer then
        [Message.userUpdate ⟨address, env.calcScore, env.calcTier, env.now⟩]
      else []
    match checkLeaderboardChange env.rankRows address with
    | some rc =>
      ⟨true,
        e1 ++ (if env.wsServer then
          [Message.leaderboardUpdate "incremental"
            (some ⟨address, rc.newRank, rc.oldRank, env.calcScore, env.calcTier⟩) env.now]
        else []),
        true⟩
    | none => ⟨true, e1, true⟩

/-- Environment of one `processSwap` call (`indexer-processSwap-FIXED.js`
lines 20–126): the `getPoolInfo` result (`none` models the `null` early
return), the two price-feed lookups, success flags for the four writes of
the `withTransaction` body (the two INSERT … ON CONFLICT statements, the
`user_actions` INSERT, the `user_stats` UPDATE), and the
`updateDNAScore` environment.  `withTransaction` is an external helper:
a throw from any statement of the body aborts the transaction and
propagates. -/
structure SwapEnv where
  poolInfo : Option (String × String)
  price0 : Option Rat
  price1 : Option Rat
  insertUserOk : Bool
  insertStatsOk : Bool
  insertActionOk : Bool
  updateStatsOk : Bool
  dna : DnaEnv
deriving DecidableEq

/-- `processSwap(event, poolId, sender, amount0, amount1)`
(`indexer-processSwap-FIXED.js` lines 20–126).  Missing pool info returns
normally without processing (lines 29–32).  `amountUsd` is
`Math.abs(Number(amount0) / 1e18) * price0`, falling back to `amount1` /
`price1`, else `null`; JavaScript floating point is modelled as exact `Rat`
(no claim depends on rounding).  The transaction body runs the writes then
`updateDNAScore`; a throw anywhere is caught at line 122, logged and
re-thrown (`throw error`, line 124), so `ok = false`.  On success, when
`this.websocketServer` is set a `user_action` broadcast is emitted
(lines 110–118). -/
def processSwap (env : SwapEnv) (sender poolId : String)
    (amount0 amount1 : Int) : PipeResult :=
  let address := sender.toLower
  match env.poolInfo with
  | none => ⟨true, [], false⟩
  | some _ =>
    let amountUsd : Option Rat :=
      match env.price0 with
      | some p0 => some (|(amount0 : Rat) / (10 : Rat) ^ 18| * p0)
      | none =>
        match env.price1 with
        | some p1 => some (|(amount1 : Rat) / (10 : Rat) ^ 18| * p1)
        | none => none
    if !env.insertUserOk then ⟨false, [], false⟩
    else if !env.insertStatsOk then ⟨false, [], false⟩
    else if !env.insertActionOk then ⟨false, [], false⟩
    else if !env.updateStatsOk then ⟨false, [], false⟩
    else
      let d := updateDNAScore env.dna address
      if !d.ok then ⟨false, d.emissions, d.rankChecked⟩
      else
        let e2 : List Message :=
          if env.dna.wsServer then
            [Message.userAction ⟨address, "swap", some poolId, amountUsd, env.dna.now⟩]
          else []
        ⟨true, d.emissions ++ e2, d.rankChecked⟩

/-- Every persistence call of the `processSwap` transaction succeeds
(reads and writes), with the `dna_score` UPDATE only required when it is
reached (a missing stats row returns before it). -/
def allPersistOk (env : SwapEnv) : Prop :=
  env.insertUserOk = true ∧ env.insertStatsOk = true ∧ env.insertActionOk = true ∧
    env.updateStatsOk = true ∧ env.dna.qActiveDaysOk = true ∧
    env.dna.qFirstActionOk = true ∧ env.dna.qStatsOk = true ∧
    (env.dna.statsRowExists = false ∨ env.dna.scoreUpdateOk = true)

/-- Some transactional write of the `processSwap` pipeline throws: one of
the four writes of the transaction body, or the `dna_score` UPDATE in
`updateDNAScore` (which is reached exactly when the reads succeed and the
stats row exists). -/
def someWriteFails (env : SwapEnv) : Prop :=
  env.insertUserOk = false ∨ env.insertStatsOk = false ∨ env.insertActionOk = false ∨
    env.updateStatsOk = false ∨
    (env.dna.qActiveDaysOk = true ∧ env.dna.qFirstActionOk = true ∧
      env.dna.qStatsOk = true ∧ env.dna.statsRowExists = true ∧
      env.dna.scoreUpdateOk = false)

/-- Recognizes `user_update` messages. -/
def isUserUpdate : Message → Bool
  | Message.userUpdate _ => true
  | _ => false

/-- Lexicographic order on addresses (character by character), the
tie-break order named by the specification. -/
def addrBefore (a b : String) : Prop := a.data < b.data

instance (rows perm : List StatsRow) : Decidable (validScoreOrder rows perm) := by
  unfold validScoreOrder
  infer_instance

instance (a b : String) : Decidable (addrBefore a b) := by
  unfold addrBefore
  infer_instance

instance (env : SwapEnv) : Decidable (allPersistOk env) := by
  unfold allPersistOk
  infer_instance

instance (env : SwapEnv) : Decidable (someWriteFails env) := by
  unfold someWriteFails
  infer_instance

/-- `user_stats` rows before the score update of the C1 scenario:
user `0xa` has score 10, user `0xb` has score 20. -/
def rowsBeforeC1 : List StatsRow := [⟨"0xa", 10⟩, ⟨"0xb", 20⟩]

/-- `user_stats` rows after the update raised the score of `0xa` to 30. -/
def rowsAfterC1 : List StatsRow := [⟨"0xa", 30⟩, ⟨"0xb", 20⟩]

/-- `updateDNAScore` environment for the C1 scenario: every query succeeds,
the stats row exists, a websocket server is registered, and the ranking
query sees the post-update rows. -/
def envC1 : DnaEnv := ⟨true, true, true, true, true, true, 30, "Novice", rowsAfterC1, 1000⟩

/-- Two users with equal score 72 (the tie-break scenario). -/
def tieRows : List StatsRow := [⟨"0xaa", 72⟩, ⟨"0xbb", 72⟩]

/-- Three OPEN connections of which exactly the second throws on send. -/
def clientsC3 : List Client := [⟨1, 1, true⟩, ⟨2, 1, false⟩, ⟨3, 1, true⟩]

/-- A concrete message for witness broadcasts. -/
def msgW : Message := Message.userUpdate ⟨"0xw", 1, "Novice", 0⟩

/-- An OPEN connection whose send always throws. -/
def badClient : Client := ⟨7, 1, false⟩

/-- Subscriber set holding only the broken connection. -/
def cexState : Option (List Client) := some [badClient]

/-- First broadcast message of the C4 counterexample. -/
def msgA : Message := Message.leaderboardUpdate "incremental" none 5

/-- Second broadcast message of the C4 counterexample. -/
def msgB : Message := Message.leaderboardUpdate "incremental" none 6

/-- An `updateDNAScore` environment where everything succeeds. -/
def dnaAllOk : DnaEnv := ⟨true, true, true, true, true, true, 55, "Expert", [], 42⟩

/-- A `processSwap` environment whose pool is known but whose first
transactional write (the `users` INSERT) throws. -/
def envC5 : SwapEnv := ⟨some ("t0", "t1"), none, none, false, true, true, true, dnaAllOk⟩

/-- A concrete ranking change for the C6 witness. -/
def changeW : RankingChange := ⟨"0x1", 5, 3, 80, "Expert"⟩

/-- An `updateDNAScore` environment where persistence succeeds but no
websocket server is registered. -/
def dnaNoWs : DnaEnv := ⟨true, true, true, true, true, false, 50, "Expert", [], 7⟩

/-- An `updateDNAScore` environment where persistence succeeds and a
websocket server is registered. -/
def dnaWs : DnaEnv := ⟨true, true, true, true, true, true, 50, "Expert", [], 7⟩

/-- A `processSwap` environment whose `user_stats` UPDATE throws. -/
def envC8 : SwapEnv := ⟨some ("t0", "t1"), none, none, true, true, true, false, dnaAllOk⟩

theorem foldl_sendStep_spec (cs : List Client) (acc : BroadcastTrace) :
    cs.foldl sendStep acc =
      ⟨acc.sentCount + (cs.filter okSend).length,
       acc.errorCount + (cs.filter badSend).length,
       acc.delivered ++ (cs.filter okSend).map Client.id,
       acc.attempted ++ (cs.filter isLive).map Client.id⟩ := by
  induction cs generalizing acc with
  | nil => simp
  | cons c cs ih =>
    rw [List.foldl_cons, ih]
    by_cases h1 : c.readyState = 1
    · cases h2 : c.sendOk <;>
        simp [sendStep, okSend, badSend, isLive, h1, h2, List.filter_cons,
          Nat.add_comm, Nat.add_assoc, Nat.add_left_comm]
    · simp [sendStep, okSend, badSend, isLive, h1, List.filter_cons]

theorem filter_length_partition (cs : List Client) (p : Client → Bool) :
    (cs.filter p).length + (cs.filter (fun c => !p c)).length = cs.length := by
  induction cs with
  | nil => simp
  | cons c cs ih =>
    cases h : p c <;> simp [List.filter_cons, h] <;> omega

theorem live_partition (cs : List Client) :
    (cs.filter isLive).length = (cs.filter okSend).length + (cs.filter badSend).length := by
  induction cs with
  | nil => simp
  | cons c cs ih =>
    by_cases h1 : c.readyState = 1
    · cases h2 : c.sendOk <;>
        simp [List.filter_cons, okSend, badSend, isLive, h1, h2, ih] <;> omega
    · simp [List.filter_cons, okSend, badSend, isLive, h1, ih]

theorem updateDNAScore_ok (env : DnaEnv) (address : String) :
    (updateDNAScore env address).ok = true ↔
      (env.qActiveDaysOk = true ∧ env.qFirstActionOk = true ∧ env.qStatsOk = true ∧
        (env.statsRowExists = false ∨ env.scoreUpdateOk = true)) := by
  obtain ⟨qa, qf, qs, se, su, ws, sc, tr, rr, n⟩ := env
  cases qa <;> cases qf <;> cases qs <;> cases se <;> cases su <;>
    simp [updateDNAScore, checkLeaderboardChange]

/-- C1 — the pipeline does NOT emit a rank-change broadcast when the rank
changes: `checkLeaderboardChange` is a stub returning `none` for every
input.  Concretely, raising the score of `0xa` from 10 to 30 moves it from
rank 2 to rank 1 (both ranks unique here because the scores are distinct),
yet `checkLeaderboardChange` still reports no change, and the
`updateDNAScore` pipeline run on the post-update rows emits only the
`user_update` message — no incremental `leaderboard_update`. -/
theorem checkLeaderboardChange_stub_on_rank_change :
    validScoreOrder rowsBeforeC1 [⟨"0xb", 20⟩, ⟨"0xa", 10⟩]
    ∧ rankOf [⟨"0xb", 20⟩, ⟨"0xa", 10⟩] "0xa" = some 2
    ∧ validScoreOrder rowsAfterC1 rowsAfterC1
    ∧ rankOf rowsAfterC1 "0xa" = some 1
    ∧ checkLeaderboardChange rowsAfterC1 "0xa" = none
    ∧ (updateDNAScore envC1 "0xa").rankChecked = true
    ∧ (updateDNAScore envC1 "0xa").emissions =
        [Message.userUpdate ⟨"0xa", 30, "Novice", 1000⟩] := by
  decide

/-- C2 — the ranking query orders by `dna_score DESC` only: for two users
with equal score 72, the ordering that puts the lexicographically larger
address `0xbb` at rank 1 is a valid query result (and so is the opposite
ordering), so the ranking is neither deterministic nor tie-broken by
ascending address as the claim states. -/
theorem rank_query_tie_not_by_address :
    addrBefore "0xaa" "0xbb"
    ∧ validScoreOrder tieRows [⟨"0xbb", 72⟩, ⟨"0xaa", 72⟩]
    ∧ rankOf [⟨"0xbb", 72⟩, ⟨"0xaa", 72⟩] "0xbb" = some 1
    ∧ rankOf [⟨"0xbb", 72⟩, ⟨"0xaa", 72⟩] "0xaa" = some 2
    ∧ validScoreOrder tieRows tieRows
    ∧ rankOf tieRows "0xaa" = some 1 := by
  decide

/-- C3 — broadcast isolation: over 3 OPEN connections of which exactly one
throws on send, `broadcastToAll` reports 2 successful and 1 failed send,
and every non-throwing connection received the message. -/
theorem broadcast_isolation (cs : List Client) (msg : Message)
    (hopen : ∀ c ∈ cs, c.readyState = 1) (hlen : cs.length = 3)
    (hbad : (cs.filter (fun c => !c.sendOk)).length = 1) :
    (broadcastToAll (some cs) msg).sentCount = 2
    ∧ (broadcastToAll (some cs) msg).errorCount = 1
    ∧ ∀ c ∈ cs, c.sendOk = true →
        c.id ∈ (broadcastToAll (some cs) msg).delivered := by
  have hb : broadcastToAll (some cs) msg = cs.foldl sendStep emptyTrace := rfl
  have hspec := foldl_sendStep_spec cs emptyTrace
  have hok : cs.filter okSend = cs.filter (fun c => c.sendOk) := by
    apply List.filter_congr
    intro c hc
    simp [okSend, hopen c hc]
  have hbadf : cs.filter badSend = cs.filter (fun c => !c.sendOk) := by
    apply List.filter_congr
    intro c hc
    simp [badSend, hopen c hc]
  have hpart := filter_length_partition cs (fun c => c.sendOk)
  have hsent : (cs.filter okSend).length = 2 := by
    rw [hok]
    omega
  have herr : (cs.filter badSend).length = 1 := by
    rw [hbadf, hbad]
  refine ⟨?_, ?_, ?_⟩
  · rw [hb, hspec]
    simp [emptyTrace, hsent]
  · rw [hb, hspec]
    simp [emptyTrace, herr]
  · intro c hc hcok
    rw [hb, hspec]
    simp only [emptyTrace, List.nil_append]
    exact List.mem_map.mpr ⟨c, List.mem_filter.mpr ⟨hc, by simp [okSend, hopen c hc, hcok]⟩, rfl⟩

theorem broadcast_isolation_witness :
    (broadcastToAll (some clientsC3) msgW).sentCount = 2
    ∧ (broadcastToAll (some clientsC3) msgW).errorCount = 1 :=
  ⟨(broadcast_isolation clientsC3 msgW (by decide) (by decide) (by decide)).1,
   (broadcast_isolation clientsC3 msgW (by decide) (by decide) (by decide)).2.1⟩

/-- C4 counterexample — a failed send does NOT remove the client: with a
single OPEN connection whose send throws, the broadcast counts the failure
but leaves the subscriber set unchanged, and the next broadcast attempts a
send to that same client again. -/
theorem failed_send_not_pruned_cex :
    (broadcastToAllState cexState msgA).1.errorCount = 1
    ∧ (broadcastToAllState cexState msgA).2 = cexState
    ∧ 7 ∈ (broadcastToAll (broadcastToAllState cexState msgA).2 msgB).attempted := by
  decide

/-- C4 amended — `broadcastToAll` never mutates the subscriber set: after
any broadcast the set is unchanged, and any OPEN client — including one
whose send just failed — is attempted again by the next broadcast. -/
theorem failed_send_client_retained (cs : List Client) (m1 m2 : Message) (c : Client)
    (hmem : c ∈ cs) (hopen : c.readyState = 1) (_hfail : c.sendOk = false) :
    (broadcastToAllState (some cs) m1).2 = some cs
    ∧ c.id ∈ (broadcastToAll ((broadcastToAllState (some cs) m1).2) m2).attempted := by
  refine ⟨rfl, ?_⟩
  show c.id ∈ (broadcastToAll (some cs) m2).attempted
  have hb : broadcastToAll (some cs) m2 = cs.foldl sendStep emptyTrace := rfl
  rw [hb, foldl_sendStep_spec cs emptyTrace]
  simp only [emptyTrace, List.nil_append]
  exact List.mem_map.mpr ⟨c, List.mem_filter.mpr ⟨hmem, by simp [isLive, hopen]⟩, rfl⟩

theorem failed_send_client_retained_witness :
    (broadcastToAllState (some [badClient]) msgA).2 = some [badClient]
    ∧ badClient.id ∈
        (broadcastToAll ((broadcastToAllState (some [badClient]) msgA).2) msgB).attempted :=
  failed_send_client_retained [badClient] msgA msgB badClient (by decide) (by decide)
    (by decide)

/-- C5 counterexample — an expected persistence failure (the `users` INSERT
throws inside the transaction) makes `processSwap` throw to its caller
(`ok = false`): the catch block logs and then re-throws. -/
theorem processSwap_persistence_failure_throws_cex :
    processSwap envC5 "0xAbC" "pool1" 5 7 = ⟨false, [], false⟩ := by
  decide

/-- C5 amended — `processSwap` returns normally exactly when pool info is
missing (early return) or every persistence call succeeds; any persistence
failure is logged and re-thrown, i.e. it propagates to the caller. -/
theorem processSwap_ok_iff (env : SwapEnv) (sender poolId : String) (a0 a1 : Int) :
    (processSwap env sender poolId a0 a1).ok = true ↔
      (env.poolInfo = none ∨ allPersistOk env) := by
  obtain ⟨pi, p0, p1, iu, ist, ia, us, dna⟩ := env
  cases pi with
  | none => simp [processSwap, allPersistOk]
  | some v =>
    have hdna := updateDNAScore_ok dna sender.toLower
    cases hb : (updateDNAScore dna sender.toLower).ok <;>
      cases iu <;> cases ist <;> cases ia <;> cases us <;>
        simp_all [processSwap, allPersistOk]

/-- C6 — every element of the `changes` array of a `ranking_changes`
message has `rankChange = oldRank - newRank` and carries the address,
ranks, score and tier of the corresponding input element unchanged. -/
theorem rankingChanges_fields (now : Nat) (cs : List RankingChange)
    (out : RankingChangeOut)
    (hmem : out ∈ msgChanges (rankingChangesMessage now cs)) :
    out.rankChange = out.oldRank - out.newRank
    ∧ ∃ c, c ∈ cs ∧ out.address = c.address ∧ out.oldRank = c.oldRank
        ∧ out.newRank = c.newRank ∧ out.dnaScore = c.dnaScore ∧ out.tier = c.tier := by
  simp only [msgChanges, rankingChangesMessage] at hmem
  rcases List.mem_map.mp hmem with ⟨c, hc, rfl⟩
  exact ⟨rfl, c, hc, rfl, rfl, rfl, rfl, rfl⟩

theorem rankingChanges_fields_witness :
    (expandChange changeW).rankChange =
      (expandChange changeW).oldRank - (expandChange changeW).newRank :=
  (rankingChanges_fields 0 [changeW] (expandChange changeW) (by decide)).1

/-- C7 counterexample — a score recompute that completes its persistence
step emits NO `user_update` when no websocket server is registered with the
indexer: the broadcast is guarded by `if (this.websocketServer)`. -/
theorem user_update_requires_server_cex :
    (updateDNAScore dnaNoWs "0xa").ok = true
    ∧ (updateDNAScore dnaNoWs "0xa").emissions = [] := by
  decide

/-- C7 amended — when a websocket server is registered, every score
recompute that completes its persistence step broadcasts exactly one
`user_update` carrying the address, new score and tier, regardless of the
rank rows (and hence regardless of any rank change). -/
theorem user_update_always_emitted (env : DnaEnv) (address : String)
    (h1 : env.qActiveDaysOk = true) (h2 : env.qFirstActionOk = true)
    (h3 : env.qStatsOk = true) (h4 : env.statsRowExists = true)
    (h5 : env.scoreUpdateOk = true) (h6 : env.wsServer = true) :
    (updateDNAScore env address).ok = true
    ∧ (updateDNAScore env address).emissions.filter isUserUpdate =
        [Message.userUpdate ⟨address, env.calcScore, env.calcTier, env.now⟩] := by
  obtain ⟨qa, qf, qs, se, su, ws, sc, tr, rr, n⟩ := env
  simp only at h1 h2 h3 h4 h5 h6
  subst h1 h2 h3 h4 h5 h6
  simp [updateDNAScore, checkLeaderboardChange, isUserUpdate]

theorem user_update_always_emitted_witness :
    (updateDNAScore dnaWs "0xa").ok = true
    ∧ (updateDNAScore dnaWs "0xa").emissions.filter isUserUpdate =
        [Message.userUpdate ⟨"0xa", 50, "Expert", 7⟩] :=
  user_update_always_emitted dnaWs "0xa" rfl rfl rfl rfl rfl rfl

/-- C8 — a transactional write failure hard-stops the pipeline: the run
throws (`ok = false`), reaches no rank-change detection, and emits no
broadcast at all (no `user_update`, no `leaderboard_update`, no
`user_action`). -/
theorem persistence_failure_hard_stop (env : SwapEnv) (sender poolId : String)
    (a0 a1 : Int) (hpool : env.poolInfo ≠ none) (hfail : someWriteFails env) :
    processSwap env sender poolId a0 a1 = ⟨false, [], false⟩ := by
  obtain ⟨pi, p0, p1, iu, ist, ia, us, dna⟩ := env
  obtain ⟨qa, qf, qs, se, su, ws, sc, tr, rr, n⟩ := dna
  cases pi with
  | none => exact absurd rfl hpool
  | some v =>
    simp only [someWriteFails] at hfail
    rcases hfail with h | h | h | h | ⟨h1, h2, h3, h4, h5⟩ <;>
      cases iu <;> cases ist <;> cases ia <;> cases us <;>
        simp_all [processSwap, updateDNAScore, checkLeaderboardChange]

theorem persistence_failure_hard_stop_witness :
    processSwap envC8 "0xa" "p" 1 2 = ⟨false, [], false⟩ :=
  persistence_failure_hard_stop envC8 "0xa" "p" 1 2 (by decide) (by decide)

/-- C9 — with no websocket server registered (`wssInstance` is null), all
five broadcast operations send to nobody, attempt nothing, raise no error
and return zero sent and zero failed counts. -/
theorem broadcasts_noop_without_server (now : Nat) (updateType : String)
    (data : Option RankPayload) (changes : List RankingChange) (leader : LeaderIn)
    (pu : UserUpdatePayload) (pa : UserActionPayload) :
    broadcastLeaderboardUpdate none now updateType data = emptyTrace
    ∧ broadcastRankingChanges none now changes = emptyTrace
    ∧ broadcastNewLeader none now leader = emptyTrace
    ∧ broadcastUserUpdate none pu = emptyTrace
    ∧ broadcastUserAction none pa = emptyTrace :=
  ⟨rfl, rfl, rfl, rfl, rfl⟩

/-- C10 — for every broadcast, `sentCount` counts exactly the OPEN clients
whose send succeeded, `errorCount` exactly the OPEN clients whose send
threw, their sum is the number of OPEN clients, sends are attempted on
exactly the OPEN clients (in order), and delivery reaches exactly the
successful OPEN clients. -/
theorem broadcast_counts_partition (cs : List Client) (msg : Message) :
    (broadcastToAll (some cs) msg).sentCount = (cs.filter okSend).length
    ∧ (broadcastToAll (some cs) msg).errorCount = (cs.filter badSend).length
    ∧ (broadcastToAll (some cs) msg).sentCount + (broadcastToAll (some cs) msg).errorCount
        = (cs.filter isLive).length
    ∧ (broadcastToAll (some cs) msg).attempted = (cs.filter isLive).map Client.id
    ∧ (broadcastToAll (some cs) msg).delivered = (cs.filter okSend).map Client.id := by
  have hb : broadcastToAll (some cs) msg = cs.foldl sendStep emptyTrace := rfl
  rw [hb, foldl_sendStep_spec cs emptyTrace]
  refine ⟨by simp [emptyTrace], by simp [emptyTrace], ?_, by simp [emptyTrace],
    by simp [emptyTrace]⟩
  have := live_partition cs
  simp [emptyTrace]
  omega

end DefiDna
